import Mathlib

/-!
Verification of the Hyrox tracker timer/recovery engine (src/unnamed/part_000,
`js/timer.js` of the repository) against its specification.

The engine is a module-level mutable record mutated by exported functions and
read by query accessors.  We embed it shallowly: the mutable record becomes the
structure `TimerState`, each exported function becomes a pure function taking
the wall-clock reading `now : Int` (JS `Date.now()`) and the state, returning
the new state together with any emitted events and its JS return value.
JS `null` on a numeric field is modelled as `none : Option Int`; JS arithmetic
coerces `null` to `0`, captured by `jsNum`.  Persisted storage (IndexedDB meta
record and the localStorage backup slot) is modelled by the `World` structure.
-/

/-- Workout blocks are opaque to the engine: only their count and order are
used.  We model a block descriptor as a string tag. -/
abbrev Block := String

/-- The module-level `timerState` record of the timer engine. -/
structure TimerState where
  workoutId : Option String
  mode : Option String
  category : Option String
  blocks : List Block
  currentBlockIndex : Nat
  blockTimesMs : List (Option Int)
  isRunning : Bool
  isPaused : Bool
  startTimestamp : Option Int
  pausedAt : Option Int
  accumulatedMs : Int
  workoutStartTimestamp : Option Int
  deriving Repr, DecidableEq

/-- JS numeric coercion of a possibly-`null` number: `null` becomes `0`.
Also models `t || 0` on numbers already known non-`null` only through
`jsNum ∘ some`, where it is the identity except on `0`, which `|| 0` maps
to `0` as well. -/
def jsNum (o : Option Int) : Int := o.getD 0

/-- JS truthiness of a possibly-`null` number: `null` and `0` are falsy. -/
def truthyNum (o : Option Int) : Bool :=
  match o with
  | none => false
  | some n => n != 0

/-- JS truthiness of a possibly-`null` string: `null` and `""` are falsy. -/
def truthyStr (o : Option String) : Bool :=
  match o with
  | none => false
  | some s => s != ""

/-- JS array element assignment `a[i] = v`.  When `i < a.length` the element
is replaced; when `i ≥ a.length` the array is extended (holes modelled as
`none`) and the element written at index `i`. -/
def setIdx (l : List (Option Int)) (i : Nat) (v : Int) : List (Option Int) :=
  if i < l.length then l.set i (some v)
  else l ++ List.replicate (i - l.length) none ++ [some v]

/-- The `config` argument of `initTimer`. -/
structure Config where
  workoutId : Option String
  mode : Option String
  category : Option String
  blocks : List Block
  deriving Repr, DecidableEq

/-- `initTimer(config)`: resets the module state for a fresh session;
`blockTimesMs` is filled with `null`, one slot per block. -/
def initTimer (config : Config) : TimerState :=
  { workoutId := config.workoutId
    mode := config.mode
    category := config.category
    blocks := config.blocks
    currentBlockIndex := 0
    blockTimesMs := List.replicate config.blocks.length none
    isRunning := false
    isPaused := false
    startTimestamp := none
    pausedAt := none
    accumulatedMs := 0
    workoutStartTimestamp := none }

/-- The empty template installed by the module initialiser and by
`resetTimerState()`. -/
def resetTimerState : TimerState :=
  { workoutId := none
    mode := none
    category := none
    blocks := []
    currentBlockIndex := 0
    blockTimesMs := []
    isRunning := false
    isPaused := false
    startTimestamp := none
    pausedAt := none
    accumulatedMs := 0
    workoutStartTimestamp := none }

/-- `startTimer()`: no-op while running; sets `workoutStartTimestamp` when it
is falsy; resuming from pause keeps `accumulatedMs`, a fresh start resets it;
transitions to running.  (The tick loop and the debounced save mutate no
modelled state.) -/
def startTimer (now : Int) (s : TimerState) : TimerState :=
  if s.isRunning then s
  else
    let s1 := if truthyNum s.workoutStartTimestamp then s
              else { s with workoutStartTimestamp := some now }
    let s2 := if s1.isPaused then
                { s1 with startTimestamp := some now, isPaused := false }
              else
                { s1 with startTimestamp := some now, accumulatedMs := 0 }
    { s2 with isRunning := true, pausedAt := none }

/-- `pauseTimer()`: no-op unless running and not paused; folds the current
interval `now - startTimestamp` into `accumulatedMs` and transitions to
paused. -/
def pauseTimer (now : Int) (s : TimerState) : TimerState :=
  if !s.isRunning || s.isPaused then s
  else
    { s with accumulatedMs := s.accumulatedMs + (now - jsNum s.startTimestamp)
             isPaused := true
             pausedAt := some now
             isRunning := false }

/-- `resumeTimer()`: no-op unless paused, otherwise `startTimer()`. -/
def resumeTimer (now : Int) (s : TimerState) : TimerState :=
  if !s.isPaused then s else startTimer now s

/-- `getCurrentElapsed()`: 0 when neither running nor paused; `accumulatedMs`
when paused; `accumulatedMs + (now - startTimestamp)` when running. -/
def getCurrentElapsed (now : Int) (s : TimerState) : Int :=
  if !s.isRunning && !s.isPaused then 0
  else if s.isPaused then s.accumulatedMs
  else s.accumulatedMs + (now - jsNum s.startTimestamp)

/-- `getTotalElapsed()`: 0 while `workoutStartTimestamp` is falsy, otherwise
the sum of the non-`null` entries of `blockTimesMs` plus
`getCurrentElapsed()`. -/
def getTotalElapsed (now : Int) (s : TimerState) : Int :=
  if !truthyNum s.workoutStartTimestamp then 0
  else
    let completedTime :=
      ((s.blockTimesMs.filter (fun t => t ≠ none)).foldl
        (fun sum t => sum + jsNum t) 0)
    completedTime + getCurrentElapsed now s

/-- Events delivered to the engine's callbacks. -/
inductive Event where
  | blockComplete (index : Nat) (timeMs : Int)
  | workoutComplete (blockTimesMs : List (Option Int)) (totalTimeMs : Int)
  deriving Repr, DecidableEq

/-- `nextBlock()`: stores the current block's elapsed time, emits
`blockComplete`; on the last block clears `isRunning`, emits
`workoutComplete` with the block times and their `(t || 0)`-sum, and returns
`false`; otherwise advances the index, resets `accumulatedMs`, restarts
`startTimestamp` and returns `true`. -/
def nextBlock (now : Int) (s : TimerState) : TimerState × List Event × Bool :=
  let currentTime := getCurrentElapsed now s
  let s1 := { s with blockTimesMs := setIdx s.blockTimesMs s.currentBlockIndex currentTime }
  let evs := [Event.blockComplete s.currentBlockIndex currentTime]
  if (s1.currentBlockIndex : Int) ≥ (s1.blocks.length : Int) - 1 then
    let s2 := { s1 with isRunning := false }
    let totalTime := s2.blockTimesMs.foldl (fun sum t => sum + jsNum t) 0
    (s2, evs ++ [Event.workoutComplete s2.blockTimesMs totalTime], false)
  else
    ({ s1 with currentBlockIndex := s1.currentBlockIndex + 1
               accumulatedMs := 0
               startTimestamp := some now }, evs, true)

/-- `finishWorkout()`: calls `nextBlock()`; its own body has no `return`
statement. -/
def finishWorkout (now : Int) (s : TimerState) : TimerState × List Event :=
  let r := nextBlock now s
  (r.1, r.2.1)

/-- A call to `nextBlock` viewed with its JS return value (`some` boolean). -/
def nextBlockCall (now : Int) (s : TimerState) :
    TimerState × List Event × Option Bool :=
  let r := nextBlock now s
  (r.1, r.2.1, some r.2.2)

/-- A call to `finishWorkout` viewed with its JS return value: the body
discards `nextBlock()`'s result and returns `undefined` (`none`). -/
def finishWorkoutCall (now : Int) (s : TimerState) :
    TimerState × List Event × Option Bool :=
  let r := nextBlock now s
  (r.1, r.2.1, none)

/-- The engine-state effect of `stopTimer(discard)`: clears the running and
paused flags; with `discard` it additionally resets to the empty template. -/
def stopTimerEngine (discard : Bool) (s : TimerState) : TimerState :=
  let s1 := { s with isRunning := false, isPaused := false }
  if discard then resetTimerState else s1

/-- The world visible to the engine: its in-memory state, the primary
persisted record (IndexedDB `timerState` meta entry) and the synchronous
fallback slot (`localStorage` key `hyrox_timer_backup`). -/
structure World where
  engine : TimerState
  stored : Option TimerState
  backup : Option TimerState
  deriving Repr, DecidableEq

/-- `stopTimer(discard)` acting on the world: with `discard` it awaits
`clearTimerState()` and then `resetTimerState()`. -/
def stopTimer (discard : Bool) (w : World) : World :=
  let e := { w.engine with isRunning := false, isPaused := false }
  if discard then { engine := resetTimerState, stored := none, backup := w.backup }
  else { w with engine := e }

/-- `restoreTimer()`: loads the persisted record; when present with a truthy
`workoutId` it replaces the in-memory state wholesale and returns it,
otherwise it returns `null` and leaves the in-memory state alone.  Result is
(JS return value, in-memory state after the call). -/
def restoreTimer (w : World) : Option TimerState × TimerState :=
  match w.stored with
  | some savedState =>
      if truthyStr savedState.workoutId then (some savedState, savedState)
      else (none, w.engine)
  | none => (none, w.engine)

/-- The `load` listener installed by `setupVisibilityHandler()`: when a
backup exists, it is migrated into the primary store only if the primary is
absent or carries a falsy `workoutId`, and the backup slot is removed in
either case.  Result is (primary store after, backup slot after). -/
def checkBackupOnLoad (backup stored : Option TimerState) :
    Option TimerState × Option TimerState :=
  match backup with
  | none => (stored, none)
  | some backupState =>
      let stored1 :=
        match stored with
        | none => some backupState
        | some existing =>
            if truthyStr existing.workoutId then stored else some backupState
      (stored1, none)

/-! ## Concrete fixtures -/

/-- A session configuration with the given block list. -/
def mkConfig (blocks : List Block) : Config :=
  { workoutId := some "w1", mode := some "sim", category := some "amateur", blocks := blocks }

/-! ## Claims -/

/-- C5: with a controllable clock, after initializing with 3 blocks, start at
t=0, pause at t=5000, resume at t=8000 and advanceBlock at t=10000, the state
has `blockTimesMs[0] = 7000`, `currentBlockIndex = 1` and
`accumulatedMs = 0`. -/
theorem timer_c5_scenario :
    (nextBlock 10000 (resumeTimer 8000 (pauseTimer 5000
        (startTimer 0 (initTimer
          (mkConfig ["run", "ski", "sled"])))))).1.blockTimesMs.getD 0 none =
      some 7000 ∧
    (nextBlock 10000 (resumeTimer 8000 (pauseTimer 5000
        (startTimer 0 (initTimer
          (mkConfig ["run", "ski", "sled"])))))).1.currentBlockIndex = 1 ∧
    (nextBlock 10000 (resumeTimer 8000 (pauseTimer 5000
        (startTimer 0 (initTimer
          (mkConfig ["run", "ski", "sled"])))))).1.accumulatedMs = 0 := by
  decide

/-- C7: `stopTimer(false)` clears the running/paused flags and leaves every
accumulated-result field and the persisted record unchanged;
`stopTimer(true)` clears the persisted record and resets the engine to the
empty template. -/
theorem timer_c7_stop_frame :
    ∀ w : World,
      ((stopTimer false w).engine.isRunning = false ∧
       (stopTimer false w).engine.isPaused = false ∧
       (stopTimer false w).engine.workoutId = w.engine.workoutId ∧
       (stopTimer false w).engine.mode = w.engine.mode ∧
       (stopTimer false w).engine.category = w.engine.category ∧
       (stopTimer false w).engine.blocks = w.engine.blocks ∧
       (stopTimer false w).engine.currentBlockIndex = w.engine.currentBlockIndex ∧
       (stopTimer false w).engine.blockTimesMs = w.engine.blockTimesMs ∧
       (stopTimer false w).engine.startTimestamp = w.engine.startTimestamp ∧
       (stopTimer false w).engine.accumulatedMs = w.engine.accumulatedMs ∧
       (stopTimer false w).engine.workoutStartTimestamp = w.engine.workoutStartTimestamp ∧
       (stopTimer false w).stored = w.stored) ∧
      stopTimer true w =
        { engine := resetTimerState, stored := none, backup := w.backup } := by
  intro w
  exact ⟨⟨rfl, rfl, rfl, rfl, rfl, rfl, rfl, rfl, rfl, rfl, rfl, rfl⟩, rfl⟩

/-- C8 counterexample: at a concrete state, `finishWorkout()` does not return
the same value as `nextBlock()` — its body discards the boolean and returns
`undefined` — so the two calls do not agree in full. -/
theorem timer_c8_counterexample :
    finishWorkoutCall 5 (startTimer 0 (initTimer (mkConfig ["run"]))) ≠
    nextBlockCall 5 (startTimer 0 (initTimer (mkConfig ["run"]))) := by
  decide

/-- C8 amended: `finishWorkout()` produces exactly the same resulting state
and the same emitted events as `advanceBlock()` in every state, but discards
advanceBlock's boolean result and returns `undefined` instead. -/
theorem timer_c8_same_state_events :
    ∀ (now : Int) (s : TimerState),
      (finishWorkoutCall now s).1 = (nextBlockCall now s).1 ∧
      (finishWorkoutCall now s).2.1 = (nextBlockCall now s).2.1 := by
  intro now s
  exact ⟨rfl, rfl⟩

/-- C10: whenever `workoutStartTimestamp` is unset (`null`), totalElapsed
returns 0, whatever `blockTimesMs` and the run flags hold. -/
theorem timer_c10_total_zero_before_start :
    ∀ (now : Int) (s : TimerState), s.workoutStartTimestamp = none →
      getTotalElapsed now s = 0 := by
  intro now s h
  simp [getTotalElapsed, truthyNum, h]

/-- C10 witness: a state with two set block entries and the running flag on,
but no `workoutStartTimestamp`, still reports total 0. -/
theorem timer_c10_witness :
    getTotalElapsed 999
      { resetTimerState with blockTimesMs := [some 100, some 200],
                             isRunning := true, accumulatedMs := 50 } = 0 :=
  timer_c10_total_zero_before_start 999 _ rfl

/-- C6: when the persisted record is absent, or present with a falsy
`workoutId`, `restoreTimer()` returns `null` and leaves the in-memory state
exactly as it was. -/
theorem timer_c6_restore_rejects_falsy_id :
    ∀ w : World,
      (∀ ex, w.stored = some ex → truthyStr ex.workoutId = false) →
      restoreTimer w = (none, w.engine) := by
  intro w h
  unfold restoreTimer
  cases hs : w.stored with
  | none => rfl
  | some ex => simp [h ex hs]

/-- C6 witness: restoring a record whose `workoutId` is `null` yields
`(null, unchanged engine)`. -/
theorem timer_c6_witness :
    restoreTimer
      { engine := initTimer (mkConfig ["run"]),
        stored := some { resetTimerState with accumulatedMs := 42 },
        backup := none } =
      (none, initTimer (mkConfig ["run"])) :=
  timer_c6_restore_rejects_falsy_id _ (fun ex hex => by
    cases hex; rfl)

/-- C9: on load, an existing fallback record is migrated into the primary
store exactly when the primary store is empty or its record's `workoutId` is
falsy, and the fallback slot is cleared in either case. -/
theorem timer_c9_backup_migration :
    ∀ (b : TimerState) (p : Option TimerState),
      ((∀ ex, p = some ex → truthyStr ex.workoutId = false) →
        checkBackupOnLoad (some b) p = (some b, none)) ∧
      (∀ ex, p = some ex → truthyStr ex.workoutId = true →
        checkBackupOnLoad (some b) p = (p, none)) := by
  intro b p
  constructor
  · intro h
    unfold checkBackupOnLoad
    cases hp : p with
    | none => rfl
    | some ex => simp [h ex hp]
  · intro ex hp ht
    subst hp
    unfold checkBackupOnLoad
    simp [ht]

/-- C9 witness: a fallback record migrates into an empty primary store, and
is discarded (but still cleared) when the primary store holds a session. -/
theorem timer_c9_witness :
    checkBackupOnLoad (some (initTimer (mkConfig ["row"]))) none =
      (some (initTimer (mkConfig ["row"])), none) ∧
    checkBackupOnLoad (some (initTimer (mkConfig ["row"])))
        (some (initTimer (mkConfig ["run"]))) =
      (some (initTimer (mkConfig ["run"])), none) :=
  ⟨(timer_c9_backup_migration _ none).1 (fun ex hex => by cases hex),
   (timer_c9_backup_migration _ _).2 _ rfl (by decide)⟩

/-- C4: failing input for the missing completion guard.  After a 1-block
workout completes (start at t=0, advanceBlock at t=1234 recording
`blockTimesMs = [1234]`), a second advanceBlock call at t=2000 is not a
no-op: it overwrites the recorded time with 0 and emits blockComplete and
workoutComplete a second time. -/
theorem timer_c4_second_advance_not_noop :
    (nextBlock 1234 (startTimer 0
        (initTimer (mkConfig ["run"])))).1.blockTimesMs = [some 1234] ∧
    (nextBlock 2000 (nextBlock 1234 (startTimer 0
        (initTimer (mkConfig ["run"])))).1).1.blockTimesMs = [some 0] ∧
    (nextBlock 2000 (nextBlock 1234 (startTimer 0
        (initTimer (mkConfig ["run"])))).1).2.1 =
      [Event.blockComplete 0 0, Event.workoutComplete [some 0] 0] := by
  decide

/-! ## C1: drift freedom of start/pause/resume under arbitrary ticks -/

/-- A user-visible timer call with the wall-clock value at which it runs.
`tick` is a scheduler firing: the source's `tick()` only reads
`getCurrentElapsed()`, invokes the callback and reschedules — it mutates no
state field, so its engine action is the identity. -/
inductive TOp where
  | start (now : Int)
  | pause (now : Int)
  | resume (now : Int)
  | tick
  deriving Repr, DecidableEq

/-- One engine step for a trace operation. -/
def engStep (op : TOp) (s : TimerState) : TimerState :=
  match op with
  | .start now => startTimer now s
  | .pause now => pauseTimer now s
  | .resume now => resumeTimer now s
  | .tick => s

/-- Run the engine from a fresh session over a trace. -/
def runEngine (config : Config) (ops : List TOp) : TimerState :=
  ops.foldl (fun s op => engStep op s) (initTimer config)

/-- Specification-side stopwatch mode, following the claim's words. -/
inductive SpecMode where
  | idle
  | running (since : Int)
  | paused
  deriving Repr, DecidableEq

/-- Specification-side stopwatch: the mode plus the accumulated sum of the
durations of all completed Running intervals (each pause's `now` minus the
timestamp of the preceding start/resume). -/
structure SpecState where
  mode : SpecMode
  total : Int
  deriving Repr, DecidableEq

/-- Specification-side transition, following the claim's words: a start or
resume opens a Running interval at `now`; a pause closes it and accumulates
its duration; ticks change nothing. -/
def specStep (op : TOp) (sp : SpecState) : SpecState :=
  match op, sp.mode with
  | .start now, .idle => ⟨.running now, 0⟩
  | .start now, .paused => ⟨.running now, sp.total⟩
  | .start _, .running _ => sp
  | .pause now, .running since => ⟨.paused, sp.total + (now - since)⟩
  | .pause _, .idle => sp
  | .pause _, .paused => sp
  | .resume now, .paused => ⟨.running now, sp.total⟩
  | .resume _, .idle => sp
  | .resume _, .running _ => sp
  | .tick, _ => sp

/-- Run the specification-side stopwatch over a trace. -/
def runSpec (ops : List TOp) : SpecState :=
  ops.foldl (fun sp op => specStep op sp) ⟨.idle, 0⟩

/-- Coupling between the engine state and the specification stopwatch. -/
def Coupled (s : TimerState) (sp : SpecState) : Prop :=
  match sp.mode with
  | .idle => s.isRunning = false ∧ s.isPaused = false
  | .running since =>
      s.isRunning = true ∧ s.isPaused = false ∧
      s.startTimestamp = some since ∧ s.accumulatedMs = sp.total
  | .paused =>
      s.isRunning = false ∧ s.isPaused = true ∧ s.accumulatedMs = sp.total

lemma coupled_step (op : TOp) (s : TimerState) (sp : SpecState)
    (h : Coupled s sp) : Coupled (engStep op s) (specStep op sp) := by
  obtain ⟨mode, total⟩ := sp
  cases op with
  | start now =>
    cases mode with
    | idle =>
      obtain ⟨hr, hp⟩ := h
      show Coupled (startTimer now s) ⟨.running now, 0⟩
      by_cases hw : truthyNum s.workoutStartTimestamp = true <;>
        simp [Coupled, startTimer, hr, hp, hw]
    | running since =>
      obtain ⟨hr, hp, hst, hacc⟩ := h
      show Coupled (startTimer now s) ⟨.running since, total⟩
      simp [Coupled, startTimer, hr, hp, hst, hacc]
    | paused =>
      obtain ⟨hr, hp, hacc⟩ := h
      show Coupled (startTimer now s) ⟨.running now, total⟩
      by_cases hw : truthyNum s.workoutStartTimestamp = true <;>
        simp [Coupled, startTimer, hr, hp, hw, hacc]
  | pause now =>
    cases mode with
    | idle =>
      obtain ⟨hr, hp⟩ := h
      show Coupled (pauseTimer now s) ⟨.idle, total⟩
      simp [Coupled, pauseTimer, hr, hp]
    | running since =>
      obtain ⟨hr, hp, hst, hacc⟩ := h
      show Coupled (pauseTimer now s) ⟨.paused, total + (now - since)⟩
      simp [Coupled, pauseTimer, hr, hp, hst, hacc, jsNum]
    | paused =>
      obtain ⟨hr, hp, hacc⟩ := h
      show Coupled (pauseTimer now s) ⟨.paused, total⟩
      simp [Coupled, pauseTimer, hr, hp, hacc]
  | resume now =>
    cases mode with
    | idle =>
      obtain ⟨hr, hp⟩ := h
      show Coupled (resumeTimer now s) ⟨.idle, total⟩
      simp [Coupled, resumeTimer, hr, hp]
    | running since =>
      obtain ⟨hr, hp, hst, hacc⟩ := h
      show Coupled (resumeTimer now s) ⟨.running since, total⟩
      simp [Coupled, resumeTimer, hr, hp, hst, hacc]
    | paused =>
      obtain ⟨hr, hp, hacc⟩ := h
      show Coupled (resumeTimer now s) ⟨.running now, total⟩
      by_cases hw : truthyNum s.workoutStartTimestamp = true <;>
        simp [Coupled, resumeTimer, startTimer, hr, hp, hw, hacc]
  | tick =>
    cases mode <;> exact h

lemma coupled_foldl (ops : List TOp) (s : TimerState) (sp : SpecState)
    (h : Coupled s sp) :
    Coupled (ops.foldl (fun s op => engStep op s) s)
      (ops.foldl (fun sp op => specStep op sp) sp) := by
  induction ops generalizing s sp with
  | nil => exact h
  | cons op rest ih => exact ih _ _ (coupled_step op s sp h)

/-- C1: over any trace of start/pause/resume calls interleaved with
arbitrarily many ticks, `getCurrentElapsed()` observed while paused equals
exactly the specification-side sum of the durations of all completed Running
intervals — tick firings never affect the measured total. -/
theorem timer_c1_drift_free (config : Config) (ops : List TOp) (now : Int)
    (h : (runEngine config ops).isPaused = true) :
    getCurrentElapsed now (runEngine config ops) = (runSpec ops).total := by
  have hc : Coupled (runEngine config ops) (runSpec ops) := by
    apply coupled_foldl
    simp [Coupled, initTimer]
  cases hm : (runSpec ops).mode with
  | idle =>
    rw [Coupled, hm] at hc
    rw [hc.2] at h
    exact absurd h (by simp)
  | running since =>
    rw [Coupled, hm] at hc
    rw [hc.2.1] at h
    exact absurd h (by simp)
  | paused =>
    rw [Coupled, hm] at hc
    obtain ⟨hr, hp, hacc⟩ := hc
    simp [getCurrentElapsed, hr, hp, hacc]

/-- C1 witness: a concrete trace with two Running intervals and scattered
ticks measures 6500 ms, the exact sum of the two interval durations. -/
theorem timer_c1_witness :
    (runEngine (mkConfig ["run", "ski"])
        [.start 0, .tick, .pause 5000, .tick, .resume 8000, .tick, .tick,
         .pause 9500]).isPaused = true ∧
    getCurrentElapsed 12345
      (runEngine (mkConfig ["run", "ski"])
        [.start 0, .tick, .pause 5000, .tick, .resume 8000, .tick, .tick,
         .pause 9500]) =
      (runSpec [.start 0, .tick, .pause 5000, .tick, .resume 8000, .tick,
        .tick, .pause 9500]).total :=
  ⟨by decide,
   timer_c1_drift_free (mkConfig ["run", "ski"])
     [.start 0, .tick, .pause 5000, .tick, .resume 8000, .tick, .tick,
      .pause 9500] 12345 (by decide)⟩

/-! ## setIdx lemmas (reachable states only write at index ≤ length) -/

lemma setIdx_eq_of_le (l : List (Option Int)) (i : Nat) (v : Int)
    (h : i ≤ l.length) :
    setIdx l i v = if i < l.length then l.set i (some v) else l ++ [some v] := by
  unfold setIdx
  by_cases hlt : i < l.length
  · simp [hlt]
  · have hi : i = l.length := Nat.le_antisymm h (Nat.not_lt.mp hlt)
    simp [hlt, hi]

lemma setIdx_length_of_le (l : List (Option Int)) (i : Nat) (v : Int)
    (h : i ≤ l.length) :
    (setIdx l i v).length =
      if i < l.length then l.length else l.length + 1 := by
  rw [setIdx_eq_of_le l i v h]
  by_cases hlt : i < l.length <;> simp [hlt]

lemma setIdx_getD_isSome (l : List (Option Int)) (i : Nat) (v : Int)
    (h : i ≤ l.length) (j : Nat) :
    ((setIdx l i v).getD j none).isSome = true ↔
      j = i ∨ (l.getD j none).isSome = true := by
  rw [setIdx_eq_of_le l i v h]
  by_cases hlt : i < l.length
  · rw [if_pos hlt]
    by_cases hji : j = i
    · subst hji
      simp [List.getElem?_set_self hlt]
    · rw [List.getD_eq_getElem?_getD, List.getElem?_set_ne (Ne.symm hji),
        ← List.getD_eq_getElem?_getD]
      simp [hji]
  · have hi : i = l.length := Nat.le_antisymm h (Nat.not_lt.mp hlt)
    rw [if_neg hlt]
    subst hi
    rcases Nat.lt_trichotomy j l.length with hj | hj | hj
    · rw [List.getD_eq_getElem?_getD, List.getElem?_append_left hj,
        ← List.getD_eq_getElem?_getD]
      simp [Nat.ne_of_lt hj]
    · subst hj
      simp [List.getElem?_concat_length]
    · have h1 : (l ++ [some v])[j]? = none :=
        List.getElem?_eq_none (by simp; omega)
      have h2 : l[j]? = none := List.getElem?_eq_none (Nat.le_of_lt hj)
      simp [h1, h2]
      omega

/-! ## nextBlock branch equations -/

lemma nextBlock_last_eq (now : Int) (s : TimerState)
    (h : (s.currentBlockIndex : Int) ≥ (s.blocks.length : Int) - 1) :
    nextBlock now s =
      ({ s with
          blockTimesMs :=
            setIdx s.blockTimesMs s.currentBlockIndex (getCurrentElapsed now s)
          isRunning := false },
       [Event.blockComplete s.currentBlockIndex (getCurrentElapsed now s),
        Event.workoutComplete
          (setIdx s.blockTimesMs s.currentBlockIndex (getCurrentElapsed now s))
          ((setIdx s.blockTimesMs s.currentBlockIndex
              (getCurrentElapsed now s)).foldl
            (fun sum t => sum + jsNum t) 0)],
       false) := by
  simp only [nextBlock]
  split
  · rfl
  · next hneg => exact absurd h (by simpa using hneg)

lemma nextBlock_mid_eq (now : Int) (s : TimerState)
    (h : ¬ ((s.currentBlockIndex : Int) ≥ (s.blocks.length : Int) - 1)) :
    nextBlock now s =
      ({ s with
          blockTimesMs :=
            setIdx s.blockTimesMs s.currentBlockIndex (getCurrentElapsed now s)
          currentBlockIndex := s.currentBlockIndex + 1
          accumulatedMs := 0
          startTimestamp := some now },
       [Event.blockComplete s.currentBlockIndex (getCurrentElapsed now s)],
       true) := by
  simp only [nextBlock]
  split
  · next hpos => exact absurd (by simpa using hpos) h
  · rfl

/-! ## C2 -/

/-- C2 counterexample: a 1-block session paused at the last block.  Calling
advanceBlock records the time and emits the events, but the engine does not
transition to Idle: the Paused flag survives, so the claim's "neither Running
nor Paused" fails at this input. -/
theorem timer_c2_counterexample :
    ¬ ((nextBlock 200 (pauseTimer 100 (startTimer 0
          (initTimer (mkConfig ["run"]))))).1.isRunning = false ∧
       (nextBlock 200 (pauseTimer 100 (startTimer 0
          (initTimer (mkConfig ["run"]))))).1.isPaused = false) := by
  decide

/-- C2 amended: on the last block, advanceBlock records the final block time,
clears only the Running flag (the Paused flag is left unchanged, so the
engine reaches Idle exactly when it was not Paused), emits workoutComplete
with all block times and their sum, and returns `false`; and the concrete
1-block scenario (start at t=0, advance at t=1234) yields
`workoutComplete [1234] 1234` with the engine Idle. -/
theorem timer_c2_last_block :
    (∀ (now : Int) (s : TimerState),
        (s.currentBlockIndex : Int) ≥ (s.blocks.length : Int) - 1 →
        nextBlock now s =
          ({ s with
              blockTimesMs :=
                setIdx s.blockTimesMs s.currentBlockIndex
                  (getCurrentElapsed now s)
              isRunning := false },
           [Event.blockComplete s.currentBlockIndex (getCurrentElapsed now s),
            Event.workoutComplete
              (setIdx s.blockTimesMs s.currentBlockIndex
                (getCurrentElapsed now s))
              ((setIdx s.blockTimesMs s.currentBlockIndex
                  (getCurrentElapsed now s)).foldl
                (fun sum t => sum + jsNum t) 0)],
           false)) ∧
    ((nextBlock 1234 (startTimer 0 (initTimer (mkConfig ["run"])))).1.isRunning
        = false ∧
     (nextBlock 1234 (startTimer 0 (initTimer (mkConfig ["run"])))).1.isPaused
        = false ∧
     (nextBlock 1234 (startTimer 0 (initTimer (mkConfig ["run"])))).2.1 =
       [Event.blockComplete 0 1234,
        Event.workoutComplete [some 1234] 1234] ∧
     (nextBlock 1234 (startTimer 0 (initTimer (mkConfig ["run"])))).2.2
        = false) :=
  ⟨fun now s h => nextBlock_last_eq now s h, by decide⟩

/-- C2 witness: the general last-block equation applied to the concrete
1-block session still running at t=777. -/
theorem timer_c2_witness :
    nextBlock 777 (startTimer 0 (initTimer (mkConfig ["run"]))) =
      ({ startTimer 0 (initTimer (mkConfig ["run"])) with
          blockTimesMs :=
            setIdx (startTimer 0 (initTimer (mkConfig ["run"]))).blockTimesMs
              (startTimer 0 (initTimer (mkConfig ["run"]))).currentBlockIndex
              (getCurrentElapsed 777
                (startTimer 0 (initTimer (mkConfig ["run"]))))
          isRunning := false },
       [Event.blockComplete
          (startTimer 0 (initTimer (mkConfig ["run"]))).currentBlockIndex
          (getCurrentElapsed 777 (startTimer 0 (initTimer (mkConfig ["run"])))),
        Event.workoutComplete
          (setIdx (startTimer 0 (initTimer (mkConfig ["run"]))).blockTimesMs
            (startTimer 0 (initTimer (mkConfig ["run"]))).currentBlockIndex
            (getCurrentElapsed 777
              (startTimer 0 (initTimer (mkConfig ["run"])))))
          ((setIdx (startTimer 0 (initTimer (mkConfig ["run"]))).blockTimesMs
              (startTimer 0 (initTimer (mkConfig ["run"]))).currentBlockIndex
              (getCurrentElapsed 777
                (startTimer 0 (initTimer (mkConfig ["run"]))))).foldl
            (fun sum t => sum + jsNum t) 0)],
       false) :=
  timer_c2_last_block.1 777 (startTimer 0 (initTimer (mkConfig ["run"])))
    (by decide)

/-! ## C3: the blockTimesMs / currentBlockIndex invariant -/

/-- States reachable through the engine's operations from a fresh
initialization. -/
inductive Reach : TimerState → Prop where
  | init (config : Config) : Reach (initTimer config)
  | start (now : Int) {s : TimerState} : Reach s → Reach (startTimer now s)
  | pause (now : Int) {s : TimerState} : Reach s → Reach (pauseTimer now s)
  | resume (now : Int) {s : TimerState} : Reach s → Reach (resumeTimer now s)
  | next (now : Int) {s : TimerState} : Reach s → Reach (nextBlock now s).1
  | finish (now : Int) {s : TimerState} :
      Reach s → Reach (finishWorkout now s).1
  | stop (discard : Bool) {s : TimerState} :
      Reach s → Reach (stopTimerEngine discard s)

/-- Inductive invariant tying the set entries of `blockTimesMs` to
`currentBlockIndex`. -/
def BlocksInv (s : TimerState) : Prop :=
  s.currentBlockIndex ≤ s.blockTimesMs.length ∧
  (∀ i, i < s.currentBlockIndex →
    (s.blockTimesMs.getD i none).isSome = true) ∧
  (∀ i, (s.blockTimesMs.getD i none).isSome = true →
    i ≤ s.currentBlockIndex) ∧
  (s.currentBlockIndex < s.blocks.length ∨ s.currentBlockIndex = 0)

lemma blocksInv_initTimer (config : Config) : BlocksInv (initTimer config) := by
  refine ⟨by simp [initTimer], ?_, ?_, Or.inr rfl⟩
  · intro i hi
    exact absurd hi (by simp [initTimer])
  · intro i hi
    by_cases hlt : i < config.blocks.length
    · exact absurd hi (by simp [initTimer, List.getElem?_replicate, hlt])
    · exact absurd hi (by simp [initTimer, List.getElem?_replicate, hlt])

lemma blocksInv_resetTimerState : BlocksInv resetTimerState := by
  refine ⟨by simp [resetTimerState], ?_, ?_, Or.inr rfl⟩
  · intro i hi
    exact absurd hi (by simp [resetTimerState])
  · intro i hi
    exact absurd hi (by simp [resetTimerState])

lemma startTimer_proj (now : Int) (s : TimerState) :
    (startTimer now s).currentBlockIndex = s.currentBlockIndex ∧
    (startTimer now s).blockTimesMs = s.blockTimesMs ∧
    (startTimer now s).blocks = s.blocks := by
  unfold startTimer
  by_cases h1 : s.isRunning = true <;>
  by_cases h2 : truthyNum s.workoutStartTimestamp = true <;>
  by_cases h3 : s.isPaused = true <;>
  simp [h1, h2, h3]

lemma pauseTimer_proj (now : Int) (s : TimerState) :
    (pauseTimer now s).currentBlockIndex = s.currentBlockIndex ∧
    (pauseTimer now s).blockTimesMs = s.blockTimesMs ∧
    (pauseTimer now s).blocks = s.blocks := by
  unfold pauseTimer
  by_cases h1 : s.isRunning = true <;>
  by_cases h2 : s.isPaused = true <;>
  simp [h1, h2]

lemma blocksInv_proj_congr {s t : TimerState}
    (hc : t.currentBlockIndex = s.currentBlockIndex)
    (hb : t.blockTimesMs = s.blockTimesMs)
    (hk : t.blocks = s.blocks)
    (h : BlocksInv s) : BlocksInv t := by
  unfold BlocksInv at *
  rw [hc, hb, hk]
  exact h

lemma blocksInv_nextBlock (now : Int) {s : TimerState} (h : BlocksInv s) :
    BlocksInv (nextBlock now s).1 := by
  obtain ⟨hlen, hset, hbound, hidx⟩ := h
  by_cases hc : (s.currentBlockIndex : Int) ≥ (s.blocks.length : Int) - 1
  · rw [nextBlock_last_eq now s hc]
    refine ⟨?_, ?_, ?_, ?_⟩
    · show s.currentBlockIndex ≤
        (setIdx s.blockTimesMs s.currentBlockIndex
          (getCurrentElapsed now s)).length
      rw [setIdx_length_of_le _ _ _ hlen]
      split <;> omega
    · intro i hi
      show ((setIdx s.blockTimesMs s.currentBlockIndex
        (getCurrentElapsed now s)).getD i none).isSome = true
      rw [setIdx_getD_isSome _ _ _ hlen]
      exact Or.inr (hset i hi)
    · intro i hi
      dsimp only at hi ⊢
      rw [setIdx_getD_isSome _ _ _ hlen] at hi
      rcases hi with hi | hi
      · exact Nat.le_of_eq hi
      · exact hbound i hi
    · exact hidx
  · rw [nextBlock_mid_eq now s hc]
    have hlt : s.currentBlockIndex + 1 < s.blocks.length := by omega
    refine ⟨?_, ?_, ?_, Or.inl hlt⟩
    · show s.currentBlockIndex + 1 ≤
        (setIdx s.blockTimesMs s.currentBlockIndex
          (getCurrentElapsed now s)).length
      rw [setIdx_length_of_le _ _ _ hlen]
      split <;> omega
    · intro i hi
      show ((setIdx s.blockTimesMs s.currentBlockIndex
        (getCurrentElapsed now s)).getD i none).isSome = true
      rw [setIdx_getD_isSome _ _ _ hlen]
      rcases Nat.lt_succ_iff_lt_or_eq.mp hi with hi | hi
      · exact Or.inr (hset i hi)
      · exact Or.inl hi
    · intro i hi
      dsimp only at hi ⊢
      rw [setIdx_getD_isSome _ _ _ hlen] at hi
      rcases hi with hi | hi
      · omega
      · exact Nat.le_succ_of_le (hbound i hi)

lemma blocksInv_reach {s : TimerState} (h : Reach s) : BlocksInv s := by
  induction h with
  | init config => exact blocksInv_initTimer config
  | start now _ ih =>
    exact blocksInv_proj_congr (startTimer_proj now _).1
      (startTimer_proj now _).2.1 (startTimer_proj now _).2.2 ih
  | pause now _ ih =>
    exact blocksInv_proj_congr (pauseTimer_proj now _).1
      (pauseTimer_proj now _).2.1 (pauseTimer_proj now _).2.2 ih
  | resume now _ ih =>
    rename_i t _
    unfold resumeTimer
    by_cases hp : t.isPaused = true
    · simp only [hp]
      exact blocksInv_proj_congr (startTimer_proj now _).1
        (startTimer_proj now _).2.1 (startTimer_proj now _).2.2 ih
    · simp only [Bool.not_eq_true] at hp
      simp only [hp]
      simpa using ih
  | next now _ ih => exact blocksInv_nextBlock now ih
  | finish now _ ih => exact blocksInv_nextBlock now ih
  | stop discard _ ih =>
    cases discard with
    | true => exact blocksInv_resetTimerState
    | false =>
      exact blocksInv_proj_congr rfl rfl rfl ih

/-- C3 counterexample: after a 1-block workout completes (start at t=0,
advanceBlock at t=5), `blockTimesMs[0]` is set while `currentBlockIndex` is
still 0 — `nextBlock` does not increment the index on the final block — so
"set iff `i < currentBlockIndex`" fails at `i = 0`, and the index never
reaches `len(blocks)`. -/
theorem timer_c3_counterexample :
    ¬ ((((nextBlock 5 (startTimer 0
            (initTimer (mkConfig ["run"])))).1.blockTimesMs.getD 0
          none).isSome = true) ↔
        0 < (nextBlock 5 (startTimer 0
            (initTimer (mkConfig ["run"])))).1.currentBlockIndex) := by
  decide

/-- C3 amended: in every state reachable through the engine's operations,
the set entries of `blockTimesMs` are exactly a prefix: every index below
`currentBlockIndex` is set, every set index is at most `currentBlockIndex`
(the final block's slot is set at `i = currentBlockIndex` on completion,
since the index is not incremented then), and `currentBlockIndex` stays
strictly below `len(blocks)` (0 for an empty block list), never reaching
`len(blocks)`; advanceBlock leaves the index unchanged on the final block
and increments it by exactly one otherwise. -/
theorem timer_c3_blocks_invariant :
    (∀ s : TimerState, Reach s →
      (∀ i, i < s.currentBlockIndex →
        (s.blockTimesMs.getD i none).isSome = true) ∧
      (∀ i, (s.blockTimesMs.getD i none).isSome = true →
        i ≤ s.currentBlockIndex) ∧
      (s.currentBlockIndex < s.blocks.length ∨ s.currentBlockIndex = 0)) ∧
    (∀ (now : Int) (t : TimerState),
      (nextBlock now t).1.currentBlockIndex =
        if (t.currentBlockIndex : Int) ≥ (t.blocks.length : Int) - 1
        then t.currentBlockIndex else t.currentBlockIndex + 1) := by
  constructor
  · intro s hs
    have h := blocksInv_reach hs
    exact ⟨h.2.1, h.2.2.1, h.2.2.2⟩
  · intro now t
    by_cases hc : (t.currentBlockIndex : Int) ≥ (t.blocks.length : Int) - 1
    · rw [nextBlock_last_eq now t hc, if_pos hc]
    · rw [nextBlock_mid_eq now t hc, if_neg hc]

/-- C3 witness: the amended invariant applied to the concrete completed
1-block session (reachable by init → start → advanceBlock). -/
theorem timer_c3_witness :
    (nextBlock 5 (startTimer 0
        (initTimer (mkConfig ["run"])))).1.currentBlockIndex <
      (nextBlock 5 (startTimer 0
        (initTimer (mkConfig ["run"])))).1.blocks.length ∨
    (nextBlock 5 (startTimer 0
        (initTimer (mkConfig ["run"])))).1.currentBlockIndex = 0 :=
  (timer_c3_blocks_invariant.1 _
    (Reach.next 5 (Reach.start 0 (Reach.init (mkConfig ["run"]))))).2.2
